import Mathlib

/-!
Shallow embedding of the resilient-acquisition layer of `api/index.py`
(rate limiter, TTL cache, circuit breaker, concurrency gate, the Vinted and
Vestiaire orchestration routines), together with theorems settling the
frozen claims about that code.

Conventions of the embedding:
- wall-clock times, TTLs and success rates are rationals (`ℚ`);
- Python `dict`s become association lists; `defaultdict(int)` lookups
  default to `0`, `defaultdict(list)` to `[]`;
- raised exceptions become `Except.error` / explicit error constructors;
- the locks (`threading.Lock`) serialize each method body, so a method whose
  `with self.lock:` block calls no other locked method is embedded as an
  atomic state transformer; `CircuitBreaker` is the exception — its `call`
  invokes `reset`/`record_failure` while already holding the same
  non-reentrant lock, so its lock is modeled explicitly and a blocked
  acquire is a `deadlock`/`none` outcome;
- `int(x)` on a nonnegative float is floor; for the two float products the
  source uses, `int(c * 1.2) = (6 * c) / 5` and `int(c / 1.5) = (2 * c) / 3`
  in exact integer arithmetic for every magnitude the program can reach, so
  those expressions are embedded with `Nat` division.
-/

/-- A Vinted product record as produced by `MyHandler.extract_item_data`
(lines 609-709): the dict keys `Title`, `Price`, `Brand`, `Size`, `Image`
plus the `Link` key added by the caller at line 502. -/
structure VintedItem where
  Title : String
  Price : String
  Brand : String
  Size : String
  Image : String
  Link : String
deriving DecidableEq, Repr

/-- A Vestiaire product record: the ten dict keys used by
`get_vestiaire_sample_data` (lines 1442-1542). -/
structure VestProduct where
  Title : String
  Price : String
  Brand : String
  Size : String
  Image : String
  Link : String
  Condition : String
  Seller : String
  OriginalPrice : String
  Discount : String
deriving DecidableEq, Repr

/-- State of `RateLimiter` (lines 44-86): `max_requests`, the adaptive
`current_limit`, and the per-identifier timestamp lists of `self.requests`
(a `defaultdict(list)`).  The constant field `backoff_multiplier = 1.5`
is inlined into `adapt_rate` below. -/
structure RateLimiter where
  max_requests : ℕ
  current_limit : ℕ
  requests : List (String × List ℚ)
deriving DecidableEq, Repr

/-- `RateLimiter.__init__` (lines 46-51): `current_limit` starts at
`max_requests_per_minute`. -/
def RateLimiter.init (max_requests_per_minute : ℕ) : RateLimiter :=
  { max_requests := max_requests_per_minute
    current_limit := max_requests_per_minute
    requests := [] }

/-- Store a new binding for `k`, replacing any previous one (dict update). -/
def assocSet {α : Type} (l : List (String × α)) (k : String) (v : α) :
    List (String × α) :=
  (k, v) :: l.filter (fun e => e.1 != k)

/-- `RateLimiter.is_allowed` (lines 53-68): prune timestamps older than 60
seconds, then admit (appending `now`) iff the pruned count is below
`current_limit`.  The pruned list is stored back in both branches, exactly
as the assignment at lines 58-61 happens before the check. -/
def RateLimiter.is_allowed (rl : RateLimiter) (identifier : String) (now : ℚ) :
    Bool × RateLimiter :=
  let pruned := ((rl.requests.lookup identifier).getD []).filter
    (fun t => now - t < 60)
  if pruned.length < rl.current_limit then
    (true, { rl with requests := assocSet rl.requests identifier (pruned ++ [now]) })
  else
    (false, { rl with requests := assocSet rl.requests identifier pruned })

/-- `RateLimiter.adapt_rate` (lines 70-76).  The backoff divisor is the
constant `backoff_multiplier = 1.5` from `__init__`;
`int(current_limit / 1.5)` is `(2 * current_limit) / 3` and
`int(current_limit * 1.2)` is `(6 * current_limit) / 5` in `Nat` division. -/
def RateLimiter.adapt_rate (rl : RateLimiter) (success_rate : ℚ) : RateLimiter :=
  if success_rate < 1/2 then
    { rl with current_limit := max 5 ((2 * rl.current_limit) / 3) }
  else if success_rate > 4/5 then
    { rl with current_limit := min rl.max_requests ((6 * rl.current_limit) / 5) }
  else rl

/-- Increment a `defaultdict(int)` counter. -/
def bumpCount (l : List (String × ℕ)) (k : String) : List (String × ℕ) :=
  assocSet l k (((l.lookup k).getD 0) + 1)

/-- State of `CacheManager` (lines 88-140): the `(data, timestamp)` store,
the TTL in seconds, and the per-key hit/miss counters. -/
structure CacheManager (α : Type) where
  cache : List (String × α × ℚ)
  cache_duration : ℚ
  hit_count : List (String × ℕ)
  miss_count : List (String × ℕ)

/-- `CacheManager.__init__` (lines 90-95): duration is minutes times 60. -/
def CacheManager.init (α : Type) (cache_duration_minutes : ℚ) : CacheManager α :=
  { cache := [], cache_duration := cache_duration_minutes * 60
    hit_count := [], miss_count := [] }

/-- `CacheManager.get` (lines 97-109): fresh entries count a hit and are
returned; expired entries are deleted and fall through to the miss branch. -/
def CacheManager.get {α : Type} (cm : CacheManager α) (key : String) (now : ℚ) :
    Option α × CacheManager α :=
  match cm.cache.lookup key with
  | some (data, timestamp) =>
    if now - timestamp < cm.cache_duration then
      (some data, { cm with hit_count := bumpCount cm.hit_count key })
    else
      (none, { cm with
        cache := cm.cache.filter (fun e => e.1 != key)
        miss_count := bumpCount cm.miss_count key })
  | none => (none, { cm with miss_count := bumpCount cm.miss_count key })

/-- `CacheManager.set` (lines 111-114): unconditional overwrite stamped
with the current time. -/
def CacheManager.set {α : Type} (cm : CacheManager α) (key : String) (data : α)
    (now : ℚ) : CacheManager α :=
  { cm with cache := (key, data, now) :: cm.cache.filter (fun e => e.1 != key) }

/-- The three states of `CircuitBreaker.state` (line 149). -/
inductive BState where
  | Closed
  | Open
  | HalfOpen
deriving DecidableEq, Repr

/-- State of `CircuitBreaker` (lines 142-182).  `last_failure_time` starts
as `None`.  The class defines exactly the methods `call`, `record_failure`
and `reset`; it has no method named `execute`.  `lock_held` is the state of
`self.lock` (line 150), a NON-reentrant `threading.Lock`: every method body
opens with `with self.lock:`, and an acquire on a lock this thread already
holds blocks forever. -/
structure CircuitBreaker where
  failure_threshold : ℕ
  recovery_timeout : ℚ
  failure_count : ℕ
  last_failure_time : Option ℚ
  state : BState
  lock_held : Bool
deriving DecidableEq, Repr

/-- `CircuitBreaker.__init__` (lines 144-150): the lock starts free. -/
def CircuitBreaker.init (failure_threshold : ℕ) (recovery_timeout : ℚ) :
    CircuitBreaker :=
  { failure_threshold := failure_threshold
    recovery_timeout := recovery_timeout
    failure_count := 0
    last_failure_time := none
    state := BState.Closed
    lock_held := false }

/-- `CircuitBreaker.record_failure` (lines 169-176): acquire `self.lock`,
increment the count, stamp the time, open the breaker once the threshold is
reached, release.  When the lock is already held by the calling thread the
acquire blocks forever (`none`): nothing is recorded. -/
def CircuitBreaker.record_failure (cb : CircuitBreaker) (now : ℚ) :
    Option CircuitBreaker :=
  if cb.lock_held then none
  else some { cb with
    failure_count := cb.failure_count + 1
    last_failure_time := some now
    state := if cb.failure_threshold ≤ cb.failure_count + 1 then BState.Open
             else cb.state }

/-- `CircuitBreaker.reset` (lines 178-182): acquire `self.lock`, close the
breaker and zero the count (the last failure time is not cleared), release.
When the lock is already held by the calling thread the acquire blocks
forever (`none`). -/
def CircuitBreaker.reset (cb : CircuitBreaker) : Option CircuitBreaker :=
  if cb.lock_held then none
  else some { cb with failure_count := 0, state := BState.Closed }

/-- Outcome of one `CircuitBreaker.call` invocation: a returned value, the
`Exception("Circuit breaker is OPEN")` fast-fail, a re-raised exception of
the protected function, the `TypeError` Python would raise when subtracting
`last_failure_time = None`, or `deadlock` — the calling thread is blocked
forever inside a nested acquire of the non-reentrant lock, so the call
never returns at all. -/
inductive CallOutcome (ε α : Type) where
  | ok (a : α)
  | circuitOpen
  | fnError (e : ε)
  | typeError
  | deadlock
deriving DecidableEq, Repr

/-- The `try` body of `CircuitBreaker.call` (lines 161-167), executed while
`call` holds `self.lock` (`held.lock_held = true`).  The protected function
is invoked (the `Bool` reports this); then line 163 calls `self.reset()` on
success and line 166 calls `self.record_failure()` on exception — both
begin with `with self.lock:` on the very lock `call` acquired at line 154,
and `threading.Lock` is not reentrant, so both return `none` here and the
thread blocks forever.  No breaker field changes past the invocation, the
result is never returned, the exception is never re-raised, and the lock is
never released. -/
def callTryBody {ε α : Type} (held : CircuitBreaker) (now : ℚ)
    (fn : Except ε α) : CallOutcome ε α × CircuitBreaker × Bool :=
  match fn with
  | Except.ok a =>
    match held.reset with
    | none => (CallOutcome.deadlock, held, true)
    | some cb' => (CallOutcome.ok a, { cb' with lock_held := false }, true)
  | Except.error e =>
    match held.record_failure now with
    | none => (CallOutcome.deadlock, held, true)
    | some cb' => (CallOutcome.fnError e, { cb' with lock_held := false },
        true)

/-- `CircuitBreaker.call` (lines 152-167).  The outcome of the protected
function is supplied as `fn : Except ε α`.  Line 154 acquires `self.lock`
for the whole body (if some earlier call left it held, this acquire itself
blocks forever).  The fast-fail, `TypeError` and `Open` to `HalfOpen` steps
happen under that single acquisition and complete (a `raise` releases the
lock as the `with` block unwinds); every path that invokes the protected
function then deadlocks inside `callTryBody`, leaving the lock held. -/
def CircuitBreaker.call {ε α : Type} (cb : CircuitBreaker) (now : ℚ)
    (fn : Except ε α) : CallOutcome ε α × CircuitBreaker × Bool :=
  if cb.lock_held then (CallOutcome.deadlock, cb, false)
  else
    if cb.state = BState.Open then
      match cb.last_failure_time with
      | none => (CallOutcome.typeError, cb, false)
      | some t =>
        if cb.recovery_timeout < now - t then
          callTryBody { cb with state := BState.HalfOpen, lock_held := true }
            now fn
        else (CallOutcome.circuitOpen, cb, false)
    else callTryBody { cb with lock_held := true } now fn

/-- A breaker in the `OPEN` state with the failure time stamped and the
lock free, for concrete evaluations of `call`'s paths. -/
def openBreaker : CircuitBreaker :=
  { failure_threshold := 3, recovery_timeout := 120, failure_count := 3
    last_failure_time := some 0, state := BState.Open, lock_held := false }

/-- A breaker in the `HALF_OPEN` state with the lock free, for concrete
evaluations of `call`'s paths. -/
def halfOpenBreaker : CircuitBreaker :=
  { failure_threshold := 3, recovery_timeout := 120, failure_count := 3
    last_failure_time := some 0, state := BState.HalfOpen
    lock_held := false }

/-- State of `RequestQueue` (lines 184-212), the bounded concurrency gate.
The handler code never invokes `add_request`; the structure is carried so
that the orchestration theorems can state that it is untouched. -/
structure RequestQueue where
  max_concurrent : ℕ
  active_requests : ℕ
deriving DecidableEq, Repr

/-- The pagination dict built by `scrape_vestiaire_data` (lines 1582-1588)
and by `do_GET`'s fallback branches. -/
structure VestPagination where
  current_page : ℕ
  total_pages : ℕ
  has_more : Bool
  items_per_page : ℕ
  total_items : ℕ
deriving DecidableEq, Repr

/-- The `{'products': ..., 'pagination': ...}` result dict of the
Vestiaire scraper. -/
structure VestResult where
  products : List VestProduct
  pagination : VestPagination
deriving DecidableEq, Repr

/-- The three hand-written base records of `get_vestiaire_sample_data`
(lines 715-752). -/
def vestiaireBaseProducts : List VestProduct :=
  [ { Title := "Chanel Classic Flap Bag - Medium"
      Price := "£4,250"
      Brand := "Chanel"
      Size := "Medium"
      Image := "https://images.vestiairecollective.com/produit/123456/abc.jpg"
      Link := "https://www.vestiairecollective.co.uk/women/bags/handbags/chanel/classic-flap-bag-123456.shtml"
      Condition := "Very Good"
      Seller := "luxury_boutique_paris"
      OriginalPrice := "£5,500"
      Discount := "23%" },
    { Title := "Louis Vuitton Neverfull MM"
      Price := "£1,180"
      Brand := "Louis Vuitton"
      Size := "MM"
      Image := "https://images.vestiairecollective.com/produit/789012/def.jpg"
      Link := "https://www.vestiairecollective.co.uk/women/bags/tote-bags/louis-vuitton/neverfull-mm-789012.shtml"
      Condition := "Good"
      Seller := "vintage_finds_london"
      OriginalPrice := "£1,450"
      Discount := "19%" },
    { Title := "Hermès Birkin 30 Togo Leather"
      Price := "£8,900"
      Brand := "Hermès"
      Size := "30"
      Image := "https://images.vestiairecollective.com/produit/345678/ghi.jpg"
      Link := "https://www.vestiairecollective.co.uk/women/bags/handbags/hermes/birkin-30-345678.shtml"
      Condition := "Excellent"
      Seller := "hermes_specialist_milan"
      OriginalPrice := "£10,200"
      Discount := "13%" } ]

/-- `get_vestiaire_sample_data` (the effective class method, lines 711-787;
the copies from line 977 on sit inside the `if __name__ == '__main__':`
suite and are dead): three fixed base products followed by twenty
`random.choice`-generated variations.  The randomized variations are
supplied as the oracle `additional`; every theorem below holds for every
oracle value. -/
def get_vestiaire_sample_data (additional : List VestProduct) :
    List VestProduct :=
  vestiaireBaseProducts ++ additional

/-- Python `f"{x}"` for the optional price strings interpolated into the
Vestiaire cache key: `None` prints as `"None"`.  (The source interpolates
the raw query-string value; printing the parsed rational is injective in
the same way, which is all the theorems use.) -/
def pyOptStr : Option ℚ → String
  | none => "None"
  | some q => toString q

/-- The Vinted cache key (line 392):
`f"{search_text}_{page_number}_{items_per_page}_{country}"`.  The unused
request fields are carried in the signature, mirroring the parameters of
`scrape_vinted_data`; the key does not depend on them. -/
def vintedCacheKey (search_text : String) (page_number items_per_page : ℕ)
    (min_price max_price : Option ℚ) (country : String) (sold_only : Bool) :
    String :=
  search_text ++ "_" ++ toString page_number ++ "_" ++
    toString items_per_page ++ "_" ++ country

/-- The Vestiaire cache key (line 793):
`f"vestiaire_{search_text}_{page_number}_{items_per_page}_{country}_{min_price}_{max_price}"`. -/
def vestiaireCacheKey (search_text : String) (page_number items_per_page : ℕ)
    (country : String) (min_price max_price : Option ℚ) : String :=
  "vestiaire_" ++ search_text ++ "_" ++ toString page_number ++ "_" ++
    toString items_per_page ++ "_" ++ country ++ "_" ++
    pyOptStr min_price ++ "_" ++ pyOptStr max_price

/-- The process-wide singletons of lines 214-218, as one state record. -/
structure OrchState where
  cache : CacheManager VestResult
  limiter : RateLimiter
  breaker : CircuitBreaker
  queue : RequestQueue

/-- The module-level component configuration (lines 215-218):
`RateLimiter(20)`, `CacheManager(15 minutes)`, `CircuitBreaker(3, 120)`,
`RequestQueue(2)`. -/
def initOrchState : OrchState :=
  { cache := CacheManager.init VestResult 15
    limiter := RateLimiter.init 20
    breaker := CircuitBreaker.init 3 120
    queue := { max_concurrent := 2, active_requests := 0 } }

/-- Observable steps of one `scrape_vestiaire_data` invocation, used to
state which collaborators the routine consults. -/
inductive VestEvent where
  | cacheGet
  | queueAcquire
  | rateAllow
  | breakerCall
  | fetchAttempt
  | adaptCall (success_rate : ℚ)
  | cacheSet
deriving DecidableEq, Repr

/-- `scrape_vestiaire_data` (the effective class method, lines 789-838; the
duplicates at lines 1234 and 1544 sit inside the dead
`if __name__ == '__main__':` suite, the line-1544 one with line-for-line
the same logic).  On a hit the cached result is returned.  On a miss the
source executes `circuit_breaker.execute(protected_scrape)` (line 807);
`CircuitBreaker` (lines 142-182) defines only `call`, `record_failure` and
`reset`, so the attribute lookup raises `AttributeError` inside the `try`
before `protected_scrape` can run.  Hence the `except` branch (lines
818-838) always runs on a miss: `adapt_rate(0.0)`, build the sample-data
fallback, cache it under the same key, and return it.  The fetch outcome
oracle `fetchOutcome` (what `_execute_vestiaire_scrape` would return or
raise) is therefore never consulted, the breaker state is never touched,
and no `RequestQueue` slot or `is_allowed` admission is ever requested. -/
def scrape_vestiaire_data (st : OrchState) (now : ℚ) (search_text : String)
    (page_number items_per_page : ℕ) (min_price max_price : Option ℚ)
    (country : String) (additional : List VestProduct)
    (fetchOutcome : Except String VestResult) :
    VestResult × OrchState × List VestEvent :=
  let key := vestiaireCacheKey search_text page_number items_per_page country
    min_price max_price
  match st.cache.get key now with
  | (some cached, cache') =>
    (cached, { st with cache := cache' }, [VestEvent.cacheGet])
  | (none, cache') =>
    let limiter' := st.limiter.adapt_rate 0
    let sample := get_vestiaire_sample_data additional
    let fallback : VestResult :=
      { products := sample
        pagination :=
          { current_page := 1
            total_pages := 1
            has_more := false
            items_per_page := sample.length
            total_items := sample.length } }
    let cache'' := cache'.set key fallback now
    (fallback,
      { st with cache := cache'', limiter := limiter' },
      [VestEvent.cacheGet, VestEvent.adaptCall 0, VestEvent.cacheSet])

/-- The JSON body built by the effective `send_json_response`
(lines 348-366): `success`, `data`, `count`, `pagination`, and an `error`
key that is always emitted and carries `null` when no error is passed
(`error = none` models the null value). -/
structure ApiResponse where
  success : Bool
  data : List VestProduct
  count : ℕ
  pagination : Option VestPagination
  error : Option String
deriving DecidableEq, Repr

/-- The `/vestiaire` branch of `do_GET` (lines 289-305):
`scrape_vestiaire_data` handles every exception internally and always
returns normally, so the `except` branch at lines 302-305 is dead and the
response is sent with the default `error=None`. -/
def doGETVestiaire (st : OrchState) (now : ℚ) (search_text : String)
    (page_number items_per_page : ℕ) (min_price max_price : Option ℚ)
    (country : String) (additional : List VestProduct)
    (fetchOutcome : Except String VestResult) :
    ApiResponse × OrchState × List VestEvent :=
  let r := scrape_vestiaire_data st now search_text page_number items_per_page
    min_price max_price country additional fetchOutcome
  ({ success := true
     data := r.1.products
     count := r.1.products.length
     pagination := some r.1.pagination
     error := none },
   r.2.1, r.2.2)

/-- Greedy match of `\d+[.,]?\d*` starting at a digit: the maximal digit
run, then optionally one `.` or `,` followed by a further maximal digit
run. -/
def takeNumToken (l : List Char) : List Char :=
  let d1 := l.takeWhile Char.isDigit
  match l.dropWhile Char.isDigit with
  | [] => d1
  | c :: rest =>
    if c = '.' ∨ c = ',' then d1 ++ c :: rest.takeWhile Char.isDigit
    else d1

/-- `re.search(r'(\d+[.,]?\d*)', ...)`: the leftmost match, `none` when the
text has no digit. -/
def firstNumToken : List Char → Option (List Char)
  | [] => none
  | c :: rest =>
    if c.isDigit then some (takeNumToken (c :: rest))
    else firstNumToken rest

/-- Decimal value of a digit run. -/
def digitsToNat (ds : List Char) : ℕ :=
  ds.foldl (fun acc c => 10 * acc + (c.toNat - 48)) 0

/-- `float(group(1).replace(',', '.'))`: integer part, optional separator,
fractional part.  The exact rational value is used; the claims only compare
against small decimal bounds, where the float comparison agrees. -/
def tokenToRat (t : List Char) : ℚ :=
  let intPart := t.takeWhile Char.isDigit
  match t.dropWhile Char.isDigit with
  | [] => digitsToNat intPart
  | _ :: frac =>
    (digitsToNat intPart : ℚ) + (digitsToNat frac : ℚ) / (10 ^ frac.length : ℚ)

/-- Lines 524-530: strip spaces from the price string, search for
`(\d+[.,]?\d*)`, and parse the match; `none` when the regex does not match
(no digit anywhere in the price). -/
def priceNum (price_str : String) : Option ℚ :=
  (firstNumToken (price_str.data.filter (fun c => c != ' '))).map tokenToRat

/-- Whether the price string contains any digit at all. -/
def hasDigit (s : String) : Bool :=
  s.data.any Char.isDigit

/-- Lines 532-537: the `include_item` conjunction of the optional lower and
upper bounds. -/
def includeItem (min_price max_price : Option ℚ) (v : ℚ) : Bool :=
  (match min_price with
   | some m => decide (m ≤ v)
   | none => true) &&
  (match max_price with
   | some m => decide (v ≤ m)
   | none => true)

/-- One record passes the price filter iff its price parses and the parsed
value satisfies both configured bounds (lines 528-540). -/
def parsesInBounds (min_price max_price : Option ℚ) (item : VintedItem) :
    Bool :=
  match priceNum item.Price with
  | none => false
  | some v => includeItem min_price max_price v

/-- Lines 520-543: when either bound is specified, keep exactly the records
whose price matches the regex and lies within the bounds; otherwise the
extracted list is untouched. -/
def vintedFilteredData (all_data : List VintedItem)
    (min_price max_price : Option ℚ) : List VintedItem :=
  if min_price.isSome || max_price.isSome then
    all_data.filter (parsesInBounds min_price max_price)
  else all_data

/-- Lines 545-552: the pagination-stabilization snap of the total count. -/
def stableTotal (total_items : ℕ) : ℕ :=
  if 90 ≤ total_items ∧ total_items ≤ 100 then 96
  else if 85 ≤ total_items ∧ total_items < 90 then 90
  else total_items

/-- The pagination dict of `scrape_vinted_data` (lines 562-570). -/
structure VintedPagination where
  current_page : ℕ
  items_per_page : ℕ
  total_items : ℕ
  total_pages : ℕ
  has_more : Bool
  start_index : ℕ
  end_index : ℕ
deriving DecidableEq, Repr

/-- The `{'products': ..., 'pagination': ...}` result of
`scrape_vinted_data`. -/
structure VintedResult where
  products : List VintedItem
  pagination : VintedPagination
deriving DecidableEq, Repr

/-- The message of the exception raised at line 561 when the page slice is
empty: `self.get_sample_data()` is evaluated, and `MyHandler` defines no
method or attribute named `get_sample_data` anywhere in the file. -/
def vintedAttrError : String :=
  "AttributeError: MyHandler object has no attribute get_sample_data"

/-- The pure tail of `scrape_vinted_data` (lines 517-573), from the point
where the network loop has produced the extracted record list `all_data`:
price filtering, total stabilization, page slicing, and result assembly.
`page_number ≥ 1` is assumed by the model (Python would slice with a
negative index for `page_number = 0`); every claim is in that domain.
When the slice `all_data[start_index:end_index]` is empty, line 561
evaluates `self.get_sample_data()`, a method that does not exist, so the
call raises `AttributeError` instead of returning. -/
def scrape_vinted_data (all_data : List VintedItem)
    (page_number items_per_page : ℕ) (min_price max_price : Option ℚ) :
    Except String VintedResult :=
  let d := vintedFilteredData all_data min_price max_price
  let total_items := d.length
  let stable_total := stableTotal total_items
  let start_index := (page_number - 1) * items_per_page
  let end_index := start_index + items_per_page
  let page_data := (d.drop start_index).take items_per_page
  if page_data.isEmpty then Except.error vintedAttrError
  else
    Except.ok
      { products := page_data
        pagination :=
          { current_page := page_number
            items_per_page := items_per_page
            total_items := stable_total
            total_pages := (stable_total + items_per_page - 1) / items_per_page
            has_more := decide (end_index < stable_total)
            start_index := start_index
            end_index := min end_index stable_total } }

/-- A synthetic extracted record with a given price string, for concrete
evaluations of the Vinted pipeline. -/
def priceItem (title price : String) : VintedItem :=
  { Title := title, Price := price, Brand := "N/A", Size := "N/A"
    Image := "N/A", Link := "" }

/-- A concrete extracted record list of 230 items, matching the worked
pagination example of the specification. -/
def sample230 : List VintedItem :=
  (List.range 230).map (fun i => priceItem (toString i) "10£")

/-- Concrete records for the price-filter evaluation: one with no digits in
its price and three priced 80, 120 and 250. -/
def filterSample : List VintedItem :=
  [ priceItem "a" "N/A", priceItem "b" "80£", priceItem "c" "120£",
    priceItem "d" "250£" ]

/-- Rate-limiter states reachable from `RateLimiter(m)` by any sequence of
`adapt_rate` calls (lines 813 and 822; the dead duplicates repeat them) and
maintenance resets (`rate_limiter.current_limit = rate_limiter.max_requests`
at line 337). -/
inductive RLReach (m : ℕ) : RateLimiter → Prop
  | init : RLReach m (RateLimiter.init m)
  | adaptStep (rl : RateLimiter) (success_rate : ℚ) :
      RLReach m rl → RLReach m (rl.adapt_rate success_rate)
  | resetStep (rl : RateLimiter) :
      RLReach m rl → RLReach m { rl with current_limit := rl.max_requests }

/-- On every reachable rate-limiter state (ceiling at least the hardcoded
floor 5), the ceiling field is the configured one and the adaptive limit
stays within `[5, ceiling]`. -/
lemma rlreach_inv {m : ℕ} {rl : RateLimiter} (hm : 5 ≤ m) (h : RLReach m rl) :
    rl.max_requests = m ∧ 5 ≤ rl.current_limit ∧ rl.current_limit ≤ m := by
  induction h with
  | init => exact ⟨rfl, hm, le_refl m⟩
  | resetStep rl _ ih => exact ⟨ih.1, ih.1 ▸ hm, ih.1 ▸ le_refl m⟩
  | adaptStep rl r _ ih =>
    obtain ⟨hmax, hlo, hhi⟩ := ih
    unfold RateLimiter.adapt_rate
    by_cases h1 : r < 1/2
    · simp only [h1, if_true]
      refine ⟨hmax, ?_, ?_⟩ <;> omega
    · simp only [h1, if_false]
      by_cases h2 : r > 4/5
      · simp only [h2, if_true]
        refine ⟨hmax, ?_, ?_⟩ <;> omega
      · simp only [h2, if_false]
        exact ⟨hmax, hlo, hhi⟩

/-- A character list with no digit has no `\d+[.,]?\d*` match. -/
lemma firstNumToken_eq_none_of_no_digit {l : List Char}
    (h : l.any Char.isDigit = false) : firstNumToken l = none := by
  induction l with
  | nil => rfl
  | cons c rest ih =>
    simp only [List.any_cons, Bool.or_eq_false_iff] at h
    unfold firstNumToken
    rw [if_neg]
    · exact ih h.2
    · simp [h.1]

/-- A price string with no digit does not parse to a numeric value. -/
lemma priceNum_eq_none_of_no_digit {s : String} (h : hasDigit s = false) :
    priceNum s = none := by
  unfold priceNum
  have hf : (s.data.filter (fun c => c != ' ')).any Char.isDigit = false := by
    rw [Bool.eq_false_iff]
    intro hany
    rw [List.any_eq_true] at hany
    obtain ⟨x, hx, hdx⟩ := hany
    have hxs : x ∈ s.data := (List.mem_filter.mp hx).1
    have hdig : hasDigit s = true := by
      unfold hasDigit
      rw [List.any_eq_true]
      exact ⟨x, hxs, hdx⟩
    rw [h] at hdig
    exact Bool.noConfusion hdig
  rw [firstNumToken_eq_none_of_no_digit hf]
  rfl

/-- Claim C1, as stated, is false: on a cache miss `scrape_vestiaire_data`
neither acquires a `RequestQueue` slot, nor consults `RateLimiter.is_allowed`,
nor reaches `CircuitBreaker.call` — at this concrete miss (empty cache,
default query, a fetch that would even succeed) the recorded collaborator
events contain none of the three. -/
theorem c1_counterexample :
    ¬ (VestEvent.queueAcquire ∈
        (scrape_vestiaire_data initOrchState 0 "handbag" 1 50 none none "uk"
          [] (Except.ok { products := [], pagination :=
            { current_page := 1, total_pages := 1, has_more := false,
              items_per_page := 0, total_items := 0 } })).2.2 ∧
       VestEvent.rateAllow ∈
        (scrape_vestiaire_data initOrchState 0 "handbag" 1 50 none none "uk"
          [] (Except.ok { products := [], pagination :=
            { current_page := 1, total_pages := 1, has_more := false,
              items_per_page := 0, total_items := 0 } })).2.2 ∧
       VestEvent.breakerCall ∈
        (scrape_vestiaire_data initOrchState 0 "handbag" 1 50 none none "uk"
          [] (Except.ok { products := [], pagination :=
            { current_page := 1, total_pages := 1, has_more := false,
              items_per_page := 0, total_items := 0 } })).2.2) := by
  decide

/-- Claim C1 (amended): on every cache miss the orchestration routine
consults only the cache and the rate adaptor — the event trace is exactly
cache get, `adapt_rate(0.0)`, cache set; no `RequestQueue` slot is acquired,
`is_allowed` is never consulted, `CircuitBreaker.call` is never reached, and
the fetch step is never attempted at all (the attempt goes through the
nonexistent `circuit_breaker.execute` attribute and raises immediately), so
in particular the fetch is never attempted outside `CircuitBreaker.call`;
the queue and breaker components are left untouched. -/
theorem c1_miss_no_collaborators (st : OrchState) (now : ℚ)
    (search_text : String) (page_number items_per_page : ℕ)
    (min_price max_price : Option ℚ) (country : String)
    (additional : List VestProduct) (fetchOutcome : Except String VestResult)
    (hmiss : (st.cache.get (vestiaireCacheKey search_text page_number
      items_per_page country min_price max_price) now).1 = none) :
    (scrape_vestiaire_data st now search_text page_number items_per_page
        min_price max_price country additional fetchOutcome).2.2 =
      [VestEvent.cacheGet, VestEvent.adaptCall 0, VestEvent.cacheSet] ∧
    VestEvent.queueAcquire ∉ (scrape_vestiaire_data st now search_text
      page_number items_per_page min_price max_price country additional
      fetchOutcome).2.2 ∧
    VestEvent.rateAllow ∉ (scrape_vestiaire_data st now search_text
      page_number items_per_page min_price max_price country additional
      fetchOutcome).2.2 ∧
    VestEvent.breakerCall ∉ (scrape_vestiaire_data st now search_text
      page_number items_per_page min_price max_price country additional
      fetchOutcome).2.2 ∧
    VestEvent.fetchAttempt ∉ (scrape_vestiaire_data st now search_text
      page_number items_per_page min_price max_price country additional
      fetchOutcome).2.2 ∧
    (scrape_vestiaire_data st now search_text page_number items_per_page
      min_price max_price country additional fetchOutcome).2.1.queue =
      st.queue ∧
    (scrape_vestiaire_data st now search_text page_number items_per_page
      min_price max_price country additional fetchOutcome).2.1.breaker =
      st.breaker := by
  rcases hget : st.cache.get (vestiaireCacheKey search_text page_number
    items_per_page country min_price max_price) now with ⟨o, cm'⟩
  rw [hget] at hmiss
  simp only at hmiss
  subst hmiss
  simp [scrape_vestiaire_data, hget]

/-- Witness for the C1 theorem: the initial state misses on every key, and
the theorem's conclusion holds there concretely. -/
theorem c1_miss_no_collaborators_witness :
    (scrape_vestiaire_data initOrchState 0 "handbag" 1 50 none none "uk"
        [] (Except.error "timeout")).2.2 =
      [VestEvent.cacheGet, VestEvent.adaptCall 0, VestEvent.cacheSet] ∧
    VestEvent.queueAcquire ∉ (scrape_vestiaire_data initOrchState 0 "handbag"
      1 50 none none "uk" [] (Except.error "timeout")).2.2 ∧
    VestEvent.rateAllow ∉ (scrape_vestiaire_data initOrchState 0 "handbag"
      1 50 none none "uk" [] (Except.error "timeout")).2.2 ∧
    VestEvent.breakerCall ∉ (scrape_vestiaire_data initOrchState 0 "handbag"
      1 50 none none "uk" [] (Except.error "timeout")).2.2 ∧
    VestEvent.fetchAttempt ∉ (scrape_vestiaire_data initOrchState 0 "handbag"
      1 50 none none "uk" [] (Except.error "timeout")).2.2 ∧
    (scrape_vestiaire_data initOrchState 0 "handbag" 1 50 none none "uk"
      [] (Except.error "timeout")).2.1.queue = initOrchState.queue ∧
    (scrape_vestiaire_data initOrchState 0 "handbag" 1 50 none none "uk"
      [] (Except.error "timeout")).2.1.breaker = initOrchState.breaker :=
  c1_miss_no_collaborators initOrchState 0 "handbag" 1 50 none none "uk"
    [] (Except.error "timeout") (by decide)

/-- Claim C2, as stated, is false in its last conjunct: at a concrete cache
miss whose fetch would raise, the failure path does run (`adapt_rate(0.0)`
appears in the trace) but the caller's `/vestiaire` response carries no
error — the exception is swallowed inside `scrape_vestiaire_data`, the dead
`except` branch of `do_GET` is never reached, and `send_json_response` is
invoked with its default `error=None`. -/
theorem c2_counterexample :
    VestEvent.adaptCall 0 ∈
      (doGETVestiaire initOrchState 0 "handbag" 1 50 none none "uk" []
        (Except.error "timeout")).2.2 ∧
    (doGETVestiaire initOrchState 0 "handbag" 1 50 none none "uk" []
      (Except.error "timeout")).1.error = none := by
  decide

/-- Claim C2 (amended): on every cache miss whose guarded fetch would raise,
`scrape_vestiaire_data` calls `adapt_rate(0.0)`, builds a fallback whose
pagination `total_items` equals the length of the non-empty synthetic
placeholder record set, and stores that fallback in the cache under the same
cache key; however the captured error is not surfaced — the caller's
response carries a null (absent) `error` field, because the exception never
escapes `scrape_vestiaire_data`. -/
theorem c2_fallback_shape (st : OrchState) (now : ℚ) (search_text : String)
    (page_number items_per_page : ℕ) (min_price max_price : Option ℚ)
    (country : String) (additional : List VestProduct) (e : String)
    (hmiss : (st.cache.get (vestiaireCacheKey search_text page_number
      items_per_page country min_price max_price) now).1 = none) :
    VestEvent.adaptCall 0 ∈ (scrape_vestiaire_data st now search_text
      page_number items_per_page min_price max_price country additional
      (Except.error e)).2.2 ∧
    (scrape_vestiaire_data st now search_text page_number items_per_page
        min_price max_price country additional
        (Except.error e)).1.pagination.total_items =
      (scrape_vestiaire_data st now search_text page_number items_per_page
        min_price max_price country additional
        (Except.error e)).1.products.length ∧
    (scrape_vestiaire_data st now search_text page_number items_per_page
      min_price max_price country additional (Except.error e)).1.products ≠
      [] ∧
    (scrape_vestiaire_data st now search_text page_number items_per_page
        min_price max_price country additional
        (Except.error e)).2.1.cache.cache.lookup
        (vestiaireCacheKey search_text page_number items_per_page country
          min_price max_price) =
      some ((scrape_vestiaire_data st now search_text page_number
        items_per_page min_price max_price country additional
        (Except.error e)).1, now) ∧
    (doGETVestiaire st now search_text page_number items_per_page min_price
      max_price country additional (Except.error e)).1.error = none := by
  rcases hget : st.cache.get (vestiaireCacheKey search_text page_number
    items_per_page country min_price max_price) now with ⟨o, cm'⟩
  rw [hget] at hmiss
  simp only at hmiss
  subst hmiss
  refine ⟨?_, ?_, ?_, ?_, ?_⟩ <;>
    simp [scrape_vestiaire_data, doGETVestiaire, hget, CacheManager.set,
      get_vestiaire_sample_data, vestiaireBaseProducts, List.lookup]

/-- Witness for the C2 theorem at the initial state with a failing fetch. -/
theorem c2_fallback_shape_witness :
    VestEvent.adaptCall 0 ∈ (scrape_vestiaire_data initOrchState 0 "handbag"
      1 50 none none "uk" [] (Except.error "boom")).2.2 ∧
    (scrape_vestiaire_data initOrchState 0 "handbag" 1 50 none none "uk" []
        (Except.error "boom")).1.pagination.total_items =
      (scrape_vestiaire_data initOrchState 0 "handbag" 1 50 none none "uk" []
        (Except.error "boom")).1.products.length ∧
    (scrape_vestiaire_data initOrchState 0 "handbag" 1 50 none none "uk" []
      (Except.error "boom")).1.products ≠ [] ∧
    (scrape_vestiaire_data initOrchState 0 "handbag" 1 50 none none "uk" []
        (Except.error "boom")).2.1.cache.cache.lookup
        (vestiaireCacheKey "handbag" 1 50 "uk" none none) =
      some ((scrape_vestiaire_data initOrchState 0 "handbag" 1 50 none none
        "uk" [] (Except.error "boom")).1, 0) ∧
    (doGETVestiaire initOrchState 0 "handbag" 1 50 none none "uk" []
      (Except.error "boom")).1.error = none :=
  c2_fallback_shape initOrchState 0 "handbag" 1 50 none none "uk" [] "boom"
    (by decide)

/-- Claim C3: the claim describes the intended edge case — a start index at
or past the stabilized total should yield an empty record slice with
`has_more = false` and no error — but the code is broken on exactly that
path: with no extracted records (so `start = 0 ≥ 0 = stabilized total`) the
empty slice makes line 561 evaluate `self.get_sample_data()`, a method
`MyHandler` never defines, and the call raises `AttributeError` instead of
returning. -/
theorem c3_empty_slice_raises :
    (1 - 1) * 50 ≥
      stableTotal (vintedFilteredData [] none none).length ∧
    scrape_vinted_data [] 1 50 none none = Except.error vintedAttrError := by
  exact ⟨by decide, rfl⟩

/-- Claim C4, as stated, is false: two Vinted requests identical except for
their `min_price` filter derive the same cache key, because the key at line
392 interpolates only search text, page number, page size and country. -/
theorem c4_counterexample :
    vintedCacheKey "shirt" 1 50 (some 100) none "uk" false =
      vintedCacheKey "shirt" 1 50 (some 200) none "uk" false ∧
    (some (100 : ℚ)) ≠ (some (200 : ℚ)) :=
  ⟨rfl, by decide⟩

/-- Claim C4 (amended): key derivation is deterministic (a pure function of
the request), but the Vinted key depends only on search text, page number,
page size and country — any two requests that differ only in min/max price
or the sold/active discriminator derive the SAME key; the Vestiaire key by
contrast interpolates the price bounds and does separate such requests
(shown at a concrete pair). -/
theorem c4_key_fields (search_text : String) (page_number items_per_page : ℕ)
    (country : String) (mp mp' xp xp' : Option ℚ) (so so' : Bool) :
    vintedCacheKey search_text page_number items_per_page mp xp country so =
      vintedCacheKey search_text page_number items_per_page mp' xp' country
        so' ∧
    vestiaireCacheKey "handbag" 1 50 "uk" (some 100) none ≠
      vestiaireCacheKey "handbag" 1 50 "uk" (some 200) none :=
  ⟨rfl, by decide⟩

/-- Claim C5, as stated (the slice is always returned), is false when the
slice is empty: with 230 extracted records, page 6 and page size 50 the
start index 250 is past the stabilized total 230; the claim's empty-slice
result is not produced — the call raises the `get_sample_data`
`AttributeError` instead. -/
theorem c5_counterexample :
    scrape_vinted_data sample230 6 50 none none =
      Except.error vintedAttrError ∧
    scrape_vinted_data sample230 6 50 none none ≠
      Except.ok { products := [], pagination :=
        { current_page := 6, items_per_page := 50, total_items := 230,
          total_pages := 5, has_more := false, start_index := 250,
          end_index := 230 } } := by
  have h1 : scrape_vinted_data sample230 6 50 none none =
      Except.error vintedAttrError := rfl
  refine ⟨h1, ?_⟩
  rw [h1]
  intro h
  exact Except.noConfusion h

/-- Claim C5 (amended): whenever the computed slice
`[(page-1)*pageSize, (page-1)*pageSize + pageSize)` of the extracted record
list is non-empty, `scrape_vinted_data` returns exactly that slice and sets
`has_more` true iff the end index is below the stabilized total (the worked
230-record instances at pages 3 and 5 are the witness); when the slice is
empty the call raises the `get_sample_data` `AttributeError` instead of
returning it. -/
theorem c5_slice_exact (all_data : List VintedItem)
    (page_number items_per_page : ℕ) (hp : 1 ≤ page_number)
    (hi : 1 ≤ items_per_page)
    (hne : (all_data.drop ((page_number - 1) * items_per_page)).take
      items_per_page ≠ []) :
    scrape_vinted_data all_data page_number items_per_page none none =
      Except.ok
        { products := (all_data.drop ((page_number - 1) *
            items_per_page)).take items_per_page
          pagination :=
            { current_page := page_number
              items_per_page := items_per_page
              total_items := stableTotal all_data.length
              total_pages := (stableTotal all_data.length + items_per_page
                - 1) / items_per_page
              has_more := decide ((page_number - 1) * items_per_page +
                items_per_page < stableTotal all_data.length)
              start_index := (page_number - 1) * items_per_page
              end_index := min ((page_number - 1) * items_per_page +
                items_per_page) (stableTotal all_data.length) } } := by
  unfold scrape_vinted_data
  simp only [vintedFilteredData, Option.isSome_none, Bool.or_self,
    Bool.false_eq_true, if_false]
  rw [if_neg]
  simp only [List.isEmpty_eq_true]
  exact hne

set_option maxRecDepth 100000 in
/-- Witness for the C5 theorem: the two worked instances of the
specification — 230 records, page size 50; page 3 gives records
`[100, 150)` with `has_more = true`, page 5 gives `[200, 230)` with
`has_more = false`. -/
theorem c5_slice_exact_witness :
    scrape_vinted_data sample230 3 50 none none =
      Except.ok
        { products := (sample230.drop 100).take 50
          pagination :=
            { current_page := 3, items_per_page := 50, total_items := 230,
              total_pages := 5, has_more := true, start_index := 100,
              end_index := 150 } } ∧
    scrape_vinted_data sample230 5 50 none none =
      Except.ok
        { products := (sample230.drop 200).take 50
          pagination :=
            { current_page := 5, items_per_page := 50, total_items := 230,
              total_pages := 5, has_more := false, start_index := 200,
              end_index := 230 } } :=
  ⟨c5_slice_exact sample230 3 50 (by decide) (by decide) (by decide),
   c5_slice_exact sample230 5 50 (by decide) (by decide) (by decide)⟩

/-- Claim C6: the claim is the intended and documented contract of
`CircuitBreaker.call`, and its fast-fail half does execute — at an `OPEN`
breaker within the recovery window the call raises the circuit-open error
without invoking the function (first two conjuncts) — but the recording
half is broken in the code: `call` still holds the non-reentrant
`self.lock` (acquired at line 154) when the `except` branch calls
`self.record_failure()` at line 166 (and the success branch `self.reset()`
at line 163), so the nested acquire blocks forever.  Evaluated at a fresh
`CLOSED` breaker with a failing protected function: the function is
invoked, the thread deadlocks, the failure count is never incremented, the
failure time is never stamped, the exception is never re-raised, and the
lock is never released. -/
theorem c6_call_deadlocks :
    (openBreaker.call 5 (Except.error "boom" : Except String Unit)).1 =
      CallOutcome.circuitOpen ∧
    (openBreaker.call 5 (Except.error "boom" : Except String Unit)).2.2 =
      false ∧
    ((CircuitBreaker.init 3 120).call 5
      (Except.error "boom" : Except String Unit)).1 =
      CallOutcome.deadlock ∧
    ((CircuitBreaker.init 3 120).call 5
      (Except.error "boom" : Except String Unit)).2.2 = true ∧
    ((CircuitBreaker.init 3 120).call 5
      (Except.error "boom" : Except String Unit)).2.1.failure_count = 0 ∧
    ((CircuitBreaker.init 3 120).call 5
      (Except.error "boom" : Except String Unit)).2.1.last_failure_time =
      none ∧
    ((CircuitBreaker.init 3 120).call 5
      (Except.error "boom" : Except String Unit)).2.1.lock_held = true := by
  have hlt : ¬ ((120 : ℚ) < 5) := by norm_num
  refine ⟨?_, ?_, rfl, rfl, rfl, rfl, rfl⟩ <;>
    simp [CircuitBreaker.call, openBreaker, hlt]

/-- Claim C7: the claimed transitions are the intended breaker state
machine, but the code can complete only the lazy `Open` to `HalfOpen` step
(line 157, a direct assignment under the single lock acquisition); every
transition driven by `reset`/`record_failure` runs inside `call`'s
lock-held region and deadlocks on the same non-reentrant lock.  Evaluated:
a failure in `Closed` records nothing (state stays `Closed`, count stays 0,
lock wedged); an elapsed call in `Open` does switch to `HalfOpen` before
invoking the function but then hangs in `reset`; a success in `HalfOpen`
never reaches `Closed` or resets the count; a failure in `HalfOpen` never
re-opens; and the wedged object blocks every later call (without invoking
the function) and even the standalone maintenance `reset`. -/
theorem c7_no_transitions :
    ((CircuitBreaker.init 3 120).call 5
      (Except.error () : Except Unit Unit)).1 = CallOutcome.deadlock ∧
    ((CircuitBreaker.init 3 120).call 5
      (Except.error () : Except Unit Unit)).2.1.state = BState.Closed ∧
    ((CircuitBreaker.init 3 120).call 5
      (Except.error () : Except Unit Unit)).2.1.failure_count = 0 ∧
    ((CircuitBreaker.init 3 120).call 5
      (Except.error () : Except Unit Unit)).2.1.lock_held = true ∧
    (openBreaker.call 200 (Except.ok () : Except Unit Unit)).2.1.state =
      BState.HalfOpen ∧
    (openBreaker.call 200 (Except.ok () : Except Unit Unit)).2.2 = true ∧
    (openBreaker.call 200 (Except.ok () : Except Unit Unit)).1 =
      CallOutcome.deadlock ∧
    (halfOpenBreaker.call 5 (Except.ok () : Except Unit Unit)).1 =
      CallOutcome.deadlock ∧
    (halfOpenBreaker.call 5 (Except.ok () : Except Unit Unit)).2.1.state =
      BState.HalfOpen ∧
    (halfOpenBreaker.call 5
      (Except.ok () : Except Unit Unit)).2.1.failure_count = 3 ∧
    (halfOpenBreaker.call 5
      (Except.error () : Except Unit Unit)).2.1.state = BState.HalfOpen ∧
    (((CircuitBreaker.init 3 120).call 5
      (Except.error () : Except Unit Unit)).2.1.call 6
      (Except.ok () : Except Unit Unit)).1 = CallOutcome.deadlock ∧
    (((CircuitBreaker.init 3 120).call 5
      (Except.error () : Except Unit Unit)).2.1.call 6
      (Except.ok () : Except Unit Unit)).2.2 = false ∧
    ((CircuitBreaker.init 3 120).call 5
      (Except.error () : Except Unit Unit)).2.1.reset = none := by
  have hlt : (120 : ℚ) < 200 := by norm_num
  refine ⟨rfl, rfl, rfl, rfl, ?_, ?_, ?_, rfl, rfl, rfl, rfl, rfl, rfl,
    rfl⟩ <;>
    simp [CircuitBreaker.call, openBreaker, hlt, callTryBody,
      CircuitBreaker.reset]

/-- Claim C8, as stated, is false at the boundary: the raise branch at line
75 requires `success_rate > 0.8` strictly, so at success rate exactly 0.8
with limit 10 and ceiling 20 the code leaves the limit at 10, while the
claim demands `min(20, floor(10 * 1.2)) = 12`. -/
theorem c8_counterexample :
    (({ max_requests := 20, current_limit := 10,
        requests := [] } : RateLimiter).adapt_rate (4/5)).current_limit =
      10 ∧
    ¬ (({ max_requests := 20, current_limit := 10,
          requests := [] } : RateLimiter).adapt_rate (4/5)).current_limit =
      min 20 ((6 * 10) / 5) := by
  have h1 : ¬ ((4 : ℚ)/5 < 1/2) := by norm_num
  have h2 : ¬ ((4 : ℚ)/5 > 4/5) := lt_irrefl _
  have hlim : (({ max_requests := 20, current_limit := 10,
                  requests := [] } : RateLimiter).adapt_rate
      (4/5)).current_limit = 10 := by
    unfold RateLimiter.adapt_rate
    rw [if_neg h1, if_neg h2]
  refine ⟨hlim, ?_⟩
  rw [hlim]
  decide

/-- Claim C8 (amended): for every limiter state and success rate in [0, 1],
`adapt_rate` sets the limit to `min(ceiling, floor(limit * 1.2))` whenever
the success rate is strictly above 0.8, to `max(floor, floor(limit / 1.5))`
(the configured 1.5 backoff divisor) whenever it is below 0.5, and leaves
the state unchanged whenever the rate lies in [0.5, 0.8] — the boundary 0.8
itself falls in the unchanged band, not the raise band. -/
theorem c8_adapt_cases (rl : RateLimiter) (success_rate : ℚ)
    (h0 : 0 ≤ success_rate) (h1 : success_rate ≤ 1) :
    (4/5 < success_rate →
      (rl.adapt_rate success_rate).current_limit =
        min rl.max_requests ((6 * rl.current_limit) / 5)) ∧
    (success_rate < 1/2 →
      (rl.adapt_rate success_rate).current_limit =
        max 5 ((2 * rl.current_limit) / 3)) ∧
    (1/2 ≤ success_rate → success_rate ≤ 4/5 →
      rl.adapt_rate success_rate = rl) := by
  unfold RateLimiter.adapt_rate
  refine ⟨?_, ?_, ?_⟩
  · intro hup
    have hn : ¬ success_rate < 1/2 := by
      intro hc
      linarith
    rw [if_neg hn, if_pos hup]
  · intro hdn
    rw [if_pos hdn]
  · intro hm hM
    have hn : ¬ success_rate < 1/2 := not_lt.mpr hm
    have hn2 : ¬ success_rate > 4/5 := not_lt.mpr hM
    rw [if_neg hn, if_neg hn2]

/-- Witness for the C8 theorem at the module-level limiter
(`RateLimiter(20)`) with full success rate 1. -/
theorem c8_adapt_cases_witness :
    (4/5 < (1 : ℚ) →
      ((RateLimiter.init 20).adapt_rate 1).current_limit =
        min (RateLimiter.init 20).max_requests
          ((6 * (RateLimiter.init 20).current_limit) / 5)) ∧
    ((1 : ℚ) < 1/2 →
      ((RateLimiter.init 20).adapt_rate 1).current_limit =
        max 5 ((2 * (RateLimiter.init 20).current_limit) / 3)) ∧
    (1/2 ≤ (1 : ℚ) → (1 : ℚ) ≤ 4/5 →
      (RateLimiter.init 20).adapt_rate 1 = RateLimiter.init 20) :=
  c8_adapt_cases (RateLimiter.init 20) 1 (by norm_num) (by norm_num)

/-- Claim C9: in every rate-limiter state reachable from the configured
limiter by any sequence of `adapt_rate` calls and maintenance resets, the
adaptive limit never exceeds the configured ceiling (`max_requests`) and
never drops below the hardcoded floor 5 (the program configures ceilings
20 and 30, both at least the floor); in particular no run of repeated
`adapt_rate(1.0)` or `adapt_rate(0.0)` calls can escape the band. -/
theorem c9_limit_bounded (m : ℕ) (rl : RateLimiter) (hm : 5 ≤ m)
    (h : RLReach m rl) :
    5 ≤ rl.current_limit ∧ rl.current_limit ≤ m :=
  ⟨(rlreach_inv hm h).2.1, (rlreach_inv hm h).2.2⟩

/-- Witness for the C9 theorem: the configured limiter `RateLimiter(20)`
after one `adapt_rate(0.0)` (a reachable state with limit
`max(5, floor(20 / 1.5)) = 13`). -/
theorem c9_limit_bounded_witness :
    5 ≤ ((RateLimiter.init 20).adapt_rate 0).current_limit ∧
    ((RateLimiter.init 20).adapt_rate 0).current_limit ≤ 20 :=
  c9_limit_bounded 20 ((RateLimiter.init 20).adapt_rate 0) (by norm_num)
    (RLReach.adaptStep (RateLimiter.init 20) 0 RLReach.init)

/-- Claim C10: when either price bound is specified, the filter excludes
every record whose price string contains no digit (the
`(\d+[.,]?\d*)` regex cannot match, so the record is never appended),
every surviving record has a parseable price within the configured bounds,
and the recomputed `total_items = len(all_data)` of line 543 counts exactly
the records whose parsed price passes both bounds. -/
theorem c10_price_filter (all_data : List VintedItem)
    (min_price max_price : Option ℚ)
    (hb : min_price.isSome ∨ max_price.isSome) (item item' : VintedItem)
    (hmem : item ∈ all_data) (hnd : hasDigit item.Price = false)
    (hmem' : item' ∈ vintedFilteredData all_data min_price max_price) :
    item ∉ vintedFilteredData all_data min_price max_price ∧
    parsesInBounds min_price max_price item' = true ∧
    (vintedFilteredData all_data min_price max_price).length =
      all_data.countP (parsesInBounds min_price max_price) := by
  have hb' : (min_price.isSome || max_price.isSome) = true := by
    rcases hb with h | h <;> simp [h]
  have hfd : vintedFilteredData all_data min_price max_price =
      all_data.filter (parsesInBounds min_price max_price) := by
    unfold vintedFilteredData
    rw [if_pos hb']
  refine ⟨?_, ?_, ?_⟩
  · intro hin
    rw [hfd] at hin
    have hpass := (List.mem_filter.mp hin).2
    unfold parsesInBounds at hpass
    rw [priceNum_eq_none_of_no_digit hnd] at hpass
    exact Bool.noConfusion hpass
  · rw [hfd] at hmem'
    exact (List.mem_filter.mp hmem').2
  · rw [hfd]
    exact (List.countP_eq_length_filter _ _).symm

/-- Witness for the C10 theorem: the specification's price-filter example —
records priced 80, 120 and 250 plus one with no parseable price, bounds
[100, 200]; the digit-free record is excluded and the filtered count is the
in-bounds count. -/
theorem c10_price_filter_witness :
    priceItem "a" "N/A" ∉
      vintedFilteredData filterSample (some 100) (some 200) ∧
    parsesInBounds (some 100) (some 200) (priceItem "c" "120£") = true ∧
    (vintedFilteredData filterSample (some 100) (some 200)).length =
      filterSample.countP (parsesInBounds (some 100) (some 200)) :=
  c10_price_filter filterSample (some 100) (some 200) (Or.inl rfl)
    (priceItem "a" "N/A") (priceItem "c" "120£") (by decide) (by decide)
    (by decide)
